import Mathlib

/-!
Verification development for the AssetFlow fixed-asset management
repository.  The definitions below are shallow embeddings of the
depreciation / book-value arithmetic (implemented once in SQL and again
in several front-end components), of the row-level-security policy
predicates from the SQL migrations, of the maintenance status workflow
exposed by the dashboard UI, of the form-input handling for
`useful_life_years`, and of the report-generator endpoint's data
aggregation.  Numeric values are modelled as rationals; elapsed time is
passed explicitly (the SQL function receives `CURRENT_DATE -
purchase_date` in days, the front-end functions receive `now.getTime() -
purchaseDate.getTime()` in milliseconds).

A remark on the SQL functions: in PostgreSQL `date - date` yields an
`integer` day count and `EXTRACT` has no integer overload, so the
expression `EXTRACT(EPOCH FROM (CURRENT_DATE - purchase_date))` in
`calculate_depreciation` raises SQLSTATE 42883 (undefined function) on
every call, and `calculate_book_value`, which calls it, raises too.
Their execution is therefore modelled fallibly by
`calculate_depreciation_run` / `calculate_book_value_run`, which retain
the body's statements but error at the `EXTRACT` step exactly as the
program does; `calculate_depreciation` / `depreciation_formula` record
the straight-line arithmetic the body spells out (under the intended
reading `years_passed = days / 365.25`), which the running function
never reaches.
-/

namespace AssetFlow

/-- Body arithmetic of SQL `calculate_depreciation` (migration
`part_002`, lines 121-147; re-declared verbatim in migration
20250828110601) under the intended reading of its first statement
(`years_passed = days_passed / 365.25`).  The function as written never
reaches this arithmetic: its `EXTRACT` raises 42883 first (see
`calculate_depreciation_run`); this definition records the straight-line
formula the body spells out and is used to state that the body contains
no zero-divisor handling. -/
def calculate_depreciation (purchase_value residual_value : ℚ)
    (useful_life_years : ℤ) (days_passed : ℚ) : ℚ :=
  let years_passed : ℚ := days_passed / 365.25
  let annual_depreciation : ℚ :=
    (purchase_value - residual_value) / (useful_life_years : ℚ)
  let total_depreciation : ℚ :=
    annual_depreciation * min years_passed (useful_life_years : ℚ)
  max 0 total_depreciation

/-- The bare straight-line formula, written out without any guard on the
divisor; used to state that `calculate_depreciation` performs no
zero-divisor handling of its own. -/
def depreciation_formula (purchase_value residual_value : ℚ)
    (useful_life_years : ℤ) (days_passed : ℚ) : ℚ :=
  max 0 ((purchase_value - residual_value) / (useful_life_years : ℚ) *
    min (days_passed / 365.25) (useful_life_years : ℚ))

/-- Annual straight-line depreciation `(purchase_value - residual_value)
/ useful_life_years`, the intermediate value shared by all the
implementations. -/
def annual_depreciation (purchase_value residual_value : ℚ)
    (useful_life_years : ℤ) : ℚ :=
  (purchase_value - residual_value) / (useful_life_years : ℚ)

/-- SQLSTATE 42883 (undefined function), the error PostgreSQL raises
when an expression applies a function to argument types for which no
overload and no implicit cast exists. -/
inductive SqlError where
  | undefinedFunction
  deriving DecidableEq

/-- PostgreSQL evaluation of `EXTRACT(EPOCH FROM (CURRENT_DATE -
purchase_date))`: subtracting two `date`s yields an `integer` day
count, and `pg_catalog.extract` has no overload accepting an integer
and no implicit cast applies, so the expression raises 42883 for every
argument. -/
def extract_epoch_of_days (days : ℤ) : Except SqlError ℚ :=
  .error .undefinedFunction

/-- Execution of SQL `calculate_depreciation` (migration `part_002`,
lines 121-147; re-declared verbatim in migration 20250828110601) on
`days = CURRENT_DATE - purchase_date`.  The first statement computes
`EXTRACT(EPOCH FROM (CURRENT_DATE - purchase_date))`, which raises
42883; the remaining statements are retained from the source but are
never reached. -/
def calculate_depreciation_run (purchase_value residual_value : ℚ)
    (useful_life_years : ℤ) (days : ℤ) : Except SqlError ℚ := do
  let epoch ← extract_epoch_of_days days
  let years_passed : ℚ := epoch / (365.25 * 24 * 3600)
  let annual_depreciation : ℚ :=
    (purchase_value - residual_value) / (useful_life_years : ℚ)
  let total_depreciation : ℚ :=
    annual_depreciation * min years_passed (useful_life_years : ℚ)
  return max 0 total_depreciation

/-- Execution of SQL `calculate_book_value` (migration `part_002`,
lines 149-165): it calls `calculate_depreciation`, whose error
propagates, and would otherwise return `purchase_value - depreciation`
with no further clamping. -/
def calculate_book_value_run (purchase_value residual_value : ℚ)
    (useful_life_years : ℤ) (days : ℤ) : Except SqlError ℚ := do
  let depreciation ←
    calculate_depreciation_run purchase_value residual_value useful_life_years days
  return purchase_value - depreciation

/-- Function `calculateBookValue` from `src/src/components/AssetList.tsx` (lines
92-100).  `elapsed_ms` stands for `now.getTime() -
purchaseDate.getTime()`; the source divides it by
`365.25 * 24 * 3600 * 1000` to obtain `yearsPassed`. -/
def assetList_calculateBookValue (purchase_value residual_value : ℚ)
    (useful_life_years : ℤ) (elapsed_ms : ℚ) : ℚ :=
  let yearsPassed : ℚ := elapsed_ms / (365.25 * 24 * 3600 * 1000)
  let annualDepreciation : ℚ :=
    (purchase_value - residual_value) / (useful_life_years : ℚ)
  let totalDepreciation : ℚ :=
    annualDepreciation * min yearsPassed (useful_life_years : ℚ)
  max residual_value (purchase_value - totalDepreciation)

/-- Function `calculateBookValue` from `src/src/components/AssetDetails.tsx`
(lines 144-149).  Note the divisor `1000 * 60 * 60 * 24 * 365`: this
implementation measures years as 365 days, not 365.25, and clamps the
depreciation at `purchase_value - residual_value` instead of clamping it
below at 0. -/
def assetDetails_calculateBookValue (purchase_value residual_value : ℚ)
    (useful_life_years : ℤ) (elapsed_ms : ℚ) : ℚ :=
  let yearsElapsed : ℚ := elapsed_ms / (1000 * 60 * 60 * 24 * 365)
  let annualDepreciation : ℚ :=
    (purchase_value - residual_value) / (useful_life_years : ℚ)
  let totalDepreciation : ℚ :=
    min (annualDepreciation * yearsElapsed) (purchase_value - residual_value)
  max (purchase_value - totalDepreciation) residual_value

/-- Per-asset depreciation computed inside the `totalBookValue` loop of
the dashboard (`src/unnamed/part_007`, lines 49-57):
`annualDepreciation * Math.min(yearsPassed, useful_life_years)` with no
floor at 0. -/
def dashboard_assetDepreciation (purchase_value residual_value : ℚ)
    (useful_life_years : ℤ) (elapsed_ms : ℚ) : ℚ :=
  let yearsPassed : ℚ := elapsed_ms / (365.25 * 24 * 3600 * 1000)
  let annualDepreciation : ℚ :=
    (purchase_value - residual_value) / (useful_life_years : ℚ)
  annualDepreciation * min yearsPassed (useful_life_years : ℚ)

/-- Per-asset contribution to `totalBookValue` in the dashboard loop
(`src/unnamed/part_007`, line 57):
`Math.max(residual_value, purchase_value - assetDepreciation)`. -/
def dashboard_assetBookValue (purchase_value residual_value : ℚ)
    (useful_life_years : ℤ) (elapsed_ms : ℚ) : ℚ :=
  max residual_value (purchase_value -
    dashboard_assetDepreciation purchase_value residual_value useful_life_years elapsed_ms)

/-! ## Row-level-security policy predicates

Shallow embedding of the policy expressions from the SQL migrations.
`auth.uid()` is passed as `uid`; the database state consists of the
`profiles` and `departments` tables (the only tables the policy
subqueries read).  Policies are modelled for an authenticated requester
(`auth.uid() IS NOT NULL` holds). -/

/-- A row of `public.profiles`.  `user_id` is `UNIQUE` in the schema. -/
structure Profile where
  user_id : ℕ
  company_id : ℕ
  deriving DecidableEq

/-- A row of `public.departments`.  `id` is the primary key. -/
structure Department where
  id : ℕ
  company_id : ℕ
  deriving DecidableEq

/-- A row of `public.assets`, restricted to the column the policies
read. -/
structure AssetRow where
  id : ℕ
  department_id : Option ℕ
  deriving DecidableEq

/-- A row of `public.asset_maintenance`, restricted to the columns that
could matter for access control. -/
structure MaintenanceRow where
  id : ℕ
  asset_id : ℕ
  deriving DecidableEq

/-- The tables read by the policy subqueries. -/
structure DB where
  profiles : List Profile
  departments : List Department
  deriving DecidableEq

/-- SELECT policy "Users can view assets from their company"
(migration 20250906171106, lines 7-18): `department_id IN (SELECT d.id
FROM departments d JOIN profiles p ON p.company_id = d.company_id WHERE
p.user_id = auth.uid()) OR department_id IS NULL`. -/
def assets_select_policy (db : DB) (uid : ℕ) (a : AssetRow) : Bool :=
  (db.departments.any fun d =>
    (db.profiles.any fun p => p.user_id == uid && p.company_id == d.company_id)
      && a.department_id == some d.id)
  || a.department_id == none

/-- UPDATE policy "Users can update assets from their company"
(migration 20250906171106, lines 20-31); its `USING` clause is the same
expression as the SELECT policy's. -/
def assets_update_policy (db : DB) (uid : ℕ) (a : AssetRow) : Bool :=
  (db.departments.any fun d =>
    (db.profiles.any fun p => p.user_id == uid && p.company_id == d.company_id)
      && a.department_id == some d.id)
  || a.department_id == none

/-- SELECT policy "Authenticated users can view maintenance records"
(migration 20250828110601, lines 152-154): `USING (auth.uid() IS NOT
NULL)`.  For an authenticated requester this is `true` no matter which
row or which company is involved. -/
def asset_maintenance_select_policy (db : DB) (uid : ℕ)
    (m : MaintenanceRow) : Bool :=
  true

/-! ## Maintenance status workflow

`src/src/components/EnhancedMaintenanceDashboard.tsx`: status is changed
only through `handleStatusChange`, which is invoked from two
conditionally rendered buttons (lines 617-634): "Iniciar" is rendered
iff the current status is `agendada` and issues `em_andamento`;
"Concluir" is rendered iff the current status is `em_andamento` and
issues `concluída`.  The edit form updates description, cost, labor
hours, type and scheduled date, never `status`. -/

/-- The four values of `asset_maintenance.status` (schema CHECK
constraint). -/
inductive MaintStatus where
  | agendada
  | emAndamento
  | concluida
  | cancelada
  deriving DecidableEq, Fintype

open MaintStatus

/-- The `newStatus` values `handleStatusChange` can be invoked with when
the current status is `s`, read off the conditional rendering of the
action buttons. -/
def handleStatusChangeTargets (s : MaintStatus) : List MaintStatus :=
  (if s = agendada then [emAndamento] else []) ++
    (if s = emAndamento then [concluida] else [])

/-! ## Form handling for `useful_life_years` -/

/-- HTML number-input constraint validation for a field with a `min`
attribute: submission is blocked when a filled-in value is below `min`
(rangeUnderflow); an empty non-required field passes.  The create form
(`src/src/components/AssetForm.tsx`, lines 524-533) declares
`type="number" min="1"` on the `useful_life_years` input. -/
def numberInputAccepts (minVal : ℤ) (value : Option ℤ) : Bool :=
  match value with
  | none => true
  | some n => minVal ≤ n

/-- The `min` attribute of the `useful_life_years` input in
`AssetForm.tsx` (line 529). -/
def assetForm_usefulLifeMin : ℤ := 1

/-- Expression `useful_life_years: parseInt(formData.useful_life_years) || 5` from
`EditAssetModal.tsx` line 175.  The `parseInt` result is modelled as
`Option ℤ` (`none` for `NaN`); `|| 5` replaces the falsy results `NaN`
and `0` by `5`. -/
def editAsset_useful_life_years (parsed : Option ℤ) : ℤ :=
  match parsed with
  | none => 5
  | some n => if n = 0 then 5 else n

/-! ## Report-generator endpoint (`src/unnamed/part_001`)

The endpoint asks the LLM for a SQL query, calls `supabase.rpc('execute_sql', ...)`
with it and discards the result, then builds `reportData` from one of
three hard-coded aggregations selected purely by keyword matching on the
prompt (lines 138-222). -/

/-- Substring containment on character lists: does `needle` occur
contiguously inside the list? -/
def charListContains (needle : List Char) : List Char → Bool
  | [] => needle.isEmpty
  | c :: rest => List.isPrefixOf needle (c :: rest) || charListContains needle rest

/-- JavaScript `s.toLowerCase()`, modelled as per-character ASCII case
folding (the keywords the endpoint tests against are already lower
case). -/
def jsToLowerCase (s : String) : String :=
  String.mk (s.data.map Char.toLower)

/-- JavaScript `a.includes(b)` on strings. -/
def jsIncludes (s sub : String) : Bool :=
  charListContains sub.data s.data

/-- JavaScript `x || d` for a possibly-null numeric field whose default
is `0` (`asset.purchase_value || 0`, `maintenance.cost || 0`): `null`
and `0` both yield `0`, so `Option ℚ` with `none ↦ 0` is exact. -/
def jsNumOrZero (x : Option ℚ) : ℚ :=
  match x with
  | none => 0
  | some v => v

/-- JavaScript `s || d` for a possibly-null string field: `null`,
`undefined` and `""` are falsy and yield the default. -/
def jsStrOr (x : Option String) (d : String) : String :=
  match x with
  | none => d
  | some s => if s = "" then d else s

/-- The columns of an asset row that the report aggregations read. -/
structure ReportAsset where
  purchase_value : Option ℚ
  category_name : Option String
  status : Option String

/-- The columns of a maintenance row that the report aggregation
reads. -/
structure ReportMaintenance where
  cost : Option ℚ
  maintenance_type : Option String

/-- One step of the `Record<string, {value, total}>` accumulation: add
`v` to an existing key's value and bump its count, or append a fresh
entry (JS object insertion order = first-seen order, which
`Object.entries` preserves). -/
def groupStep (acc : List (String × ℚ × ℕ)) (key : String) (v : ℚ) :
    List (String × ℚ × ℕ) :=
  match acc with
  | [] => [(key, v, 1)]
  | (k, val, tot) :: rest =>
    if k = key then (k, val + v, tot + 1) :: rest
    else (k, val, tot) :: groupStep rest key v

/-- Fold a list of `(key, value)` pairs into grouped
`(name, value, total)` entries, mirroring the `forEach` loops plus
`Object.entries` in the endpoint. -/
def groupEntries (rows : List (String × ℚ)) : List (String × ℚ × ℕ) :=
  rows.foldl (fun acc kv => groupStep acc kv.1 kv.2) []

/-- The "category" branch (lines 139-168): group assets by
`asset.categories?.name || 'Sem categoria'`, summing
`asset.purchase_value || 0` and counting. -/
def categoryReport (assets : List ReportAsset) : List (String × ℚ × ℕ) :=
  groupEntries (assets.map fun a =>
    (jsStrOr a.category_name "Sem categoria", jsNumOrZero a.purchase_value))

/-- The "maintenance" branch (lines 169-195): group maintenance rows by
`maintenance.maintenance_type || 'Outro'`, summing
`maintenance.cost || 0` and counting. -/
def maintenanceReport (maints : List ReportMaintenance) :
    List (String × ℚ × ℕ) :=
  groupEntries (maints.map fun m =>
    (jsStrOr m.maintenance_type "Outro", jsNumOrZero m.cost))

/-- The default branch (lines 196-222): group assets by
`asset.status || 'Indefinido'`, summing `asset.purchase_value || 0` and
counting. -/
def statusReport (assets : List ReportAsset) : List (String × ℚ × ℕ) :=
  groupEntries (assets.map fun a =>
    (jsStrOr a.status "Indefinido", jsNumOrZero a.purchase_value))

/-- Value `reportData` as computed by the endpoint: the branch is selected by
`prompt.toLowerCase().includes(...)` keyword tests; the LLM-drafted
`sqlQuery` is passed to the (discarded) `execute_sql` RPC and plays no
part in the result. -/
def generateReportData (prompt sqlQuery : String)
    (assets : List ReportAsset) (maints : List ReportMaintenance) :
    List (String × ℚ × ℕ) :=
  if jsIncludes (jsToLowerCase prompt) "categoria" ||
      jsIncludes (jsToLowerCase prompt) "category" then
    categoryReport assets
  else if jsIncludes (jsToLowerCase prompt) "manutenção" ||
      jsIncludes (jsToLowerCase prompt) "maintenance" then
    maintenanceReport maints
  else
    statusReport assets

/-! ## Shared helper lemmas -/

/-- Bounds on the straight-line formula of the SQL function body, valid
for every elapsed time (also negative) once the residual value does not
exceed the purchase value. -/
lemma sql_dep_bounds_aux (pv rv : ℚ) (life : ℤ) (days : ℚ)
    (hrv : rv ≤ pv) (hlife : 0 < life) :
    0 ≤ depreciation_formula pv rv life days ∧
    depreciation_formula pv rv life days ≤ pv - rv := by
  have hL : (0 : ℚ) < (life : ℚ) := by exact_mod_cast hlife
  have hA : 0 ≤ (pv - rv) / (life : ℚ) := div_nonneg (by linarith) hL.le
  have hx : (pv - rv) / (life : ℚ) * min (days / 365.25) (life : ℚ) ≤ pv - rv := by
    calc (pv - rv) / (life : ℚ) * min (days / 365.25) (life : ℚ)
        ≤ (pv - rv) / (life : ℚ) * (life : ℚ) :=
          mul_le_mul_of_nonneg_left (min_le_right _ _) hA
      _ = pv - rv := div_mul_cancel₀ _ hL.ne'
  refine ⟨le_max_left _ _, max_le (by linarith) hx⟩

/-- The dashboard's per-asset book value coincides with AssetList's
`calculateBookValue` (the two code paths compute the same
expression). -/
lemma dashboard_eq_assetList (pv rv : ℚ) (life : ℤ) (ms : ℚ) :
    dashboard_assetBookValue pv rv life ms =
      assetList_calculateBookValue pv rv life ms := rfl

/-- Bounds on AssetList's book value for a non-negative elapsed time
and residual value at most the purchase value. -/
lemma assetList_book_bounds_aux (pv rv : ℚ) (life : ℤ) (ms : ℚ)
    (hrv : rv ≤ pv) (hlife : 0 < life) (hms : 0 ≤ ms) :
    rv ≤ assetList_calculateBookValue pv rv life ms ∧
    assetList_calculateBookValue pv rv life ms ≤ pv := by
  have hL : (0 : ℚ) < (life : ℚ) := by exact_mod_cast hlife
  have hA : 0 ≤ (pv - rv) / (life : ℚ) := div_nonneg (by linarith) hL.le
  have hy : 0 ≤ ms / (365.25 * 24 * 3600 * 1000) := div_nonneg hms (by norm_num)
  have hm0 : 0 ≤ min (ms / (365.25 * 24 * 3600 * 1000)) (life : ℚ) :=
    le_min hy hL.le
  have hprod : 0 ≤ (pv - rv) / (life : ℚ) *
      min (ms / (365.25 * 24 * 3600 * 1000)) (life : ℚ) :=
    mul_nonneg hA hm0
  unfold assetList_calculateBookValue
  exact ⟨le_max_left _ _, max_le hrv (by linarith)⟩

/-! ## Theorems -/

/-- C1 counterexample: at the same instant, one 365.25-day year
(31557600000 ms, 365 whole days as a date difference) after purchase,
AssetList (365.25-day years) and AssetDetails (365-day years) return
different book values, and the SQL `calculate_book_value` raises 42883
and returns no book value at all. -/
theorem bookValue_impls_disagree :
    assetList_calculateBookValue 10000 1000 5 31557600000 ≠
      assetDetails_calculateBookValue 10000 1000 5 31557600000 ∧
    calculate_book_value_run 10000 1000 5 365 =
      .error .undefinedFunction := by
  constructor
  · norm_num [assetList_calculateBookValue, assetDetails_calculateBookValue,
      min_def, max_def]
  · rfl

/-- C1 amended: the SQL `calculate_book_value` never returns a book
value — for every input it raises 42883, because `EXTRACT` is applied
to the integer `date - date` — so no front-end reimplementation can
agree with it; the front ends are total but not mutually identical
either (AssetList's 365.25-day year against AssetDetails' 365-day year,
see the counterexample). -/
theorem sql_bookValue_always_raises :
    ∀ (purchase_value residual_value : ℚ)
      (useful_life_years days : ℤ),
      calculate_book_value_run purchase_value residual_value
          useful_life_years days = .error .undefinedFunction := by
  intro purchase_value residual_value useful_life_years days
  rfl

/-- C2 counterexample: with 'now' one year before purchase_date,
AssetList's book value exceeds purchase_value (all inputs non-negative,
life positive); with residual_value above purchase_value (both
non-negative) AssetList's book value exceeds purchase_value even one
year after purchase; and the SQL implementation computes no book value
whose position could be checked — it raises 42883. -/
theorem bookValue_bounds_fail :
    ¬ (assetList_calculateBookValue 10000 1000 5 (-31557600000) ≤ 10000) ∧
    ¬ (assetList_calculateBookValue 0 1000 5 31557600000 ≤ 0) ∧
    calculate_book_value_run 10000 1000 5 913 =
      .error .undefinedFunction := by
  refine ⟨?_, ?_, rfl⟩ <;>
    norm_num [assetList_calculateBookValue, min_def, max_def]

/-- C2 amended: for non-negative inputs with residual_value ≤
purchase_value and life > 0, the book value of each front-end
implementation (AssetList and the dashboard loop) lies between
residual_value and purchase_value whenever 'now' is on or after
purchase_date; the SQL implementation computes no book value at all —
it raises 42883 on every input. -/
theorem bookValue_bounds (pv rv : ℚ) (life : ℤ) (ms : ℚ) (days : ℤ)
    (h0 : 0 ≤ rv) (hrv : rv ≤ pv) (hlife : 0 < life) (hms : 0 ≤ ms) :
    (rv ≤ assetList_calculateBookValue pv rv life ms ∧
      assetList_calculateBookValue pv rv life ms ≤ pv) ∧
    (rv ≤ dashboard_assetBookValue pv rv life ms ∧
      dashboard_assetBookValue pv rv life ms ≤ pv) ∧
    calculate_book_value_run pv rv life days =
      .error .undefinedFunction := by
  have hAL := assetList_book_bounds_aux pv rv life ms hrv hlife hms
  refine ⟨hAL, ?_, rfl⟩
  rw [dashboard_eq_assetList]
  exact hAL

/-- C2 witness: at purchase_value 10000, residual 1000, life 5, 2.5
years after purchase, both front-end book values (5500) lie between
1000 and 10000, while the SQL call errors. -/
theorem bookValue_bounds_example :
    ((1000 : ℚ) ≤ assetList_calculateBookValue 10000 1000 5 78894000000 ∧
      assetList_calculateBookValue 10000 1000 5 78894000000 ≤ 10000) ∧
    ((1000 : ℚ) ≤ dashboard_assetBookValue 10000 1000 5 78894000000 ∧
      dashboard_assetBookValue 10000 1000 5 78894000000 ≤ 10000) ∧
    calculate_book_value_run 10000 1000 5 913 =
      .error .undefinedFunction :=
  bookValue_bounds 10000 1000 5 78894000000 913
    (by norm_num) (by norm_num) (by norm_num) (by norm_num)

/-- C3 counterexample: at the valid input purchase_value 0,
residual_value 1 (both non-negative), life 1 and 'now' equal to
purchase_date, the SQL function computes no depreciation satisfying the
claimed bounds — it raises 42883 — and the straight-line formula its
body spells out would evaluate to 0 there, exceeding purchase_value −
residual_value = −1. -/
theorem depreciation_upper_bound_fails :
    calculate_depreciation_run 0 1 1 0 = .error .undefinedFunction ∧
    ¬ (depreciation_formula 0 1 1 0 ≤ 0 - 1) := by
  refine ⟨rfl, ?_⟩
  norm_num [depreciation_formula, min_def, max_def]

/-- C3 amended: the SQL `calculate_depreciation` computes no
accumulated depreciation at all: for every input it raises 42883 at its
first statement.  The unguarded straight-line formula of its body,
evaluated with `years_passed = days / 365.25` as the code intends,
satisfies 0 ≤ depreciation ≤ purchase_value − residual_value for all
valid inputs that additionally satisfy residual_value ≤ purchase_value,
for every 'now' including before purchase_date. -/
theorem depreciation_bounds (pv rv : ℚ) (life : ℤ) (days_int : ℤ)
    (days : ℚ) (h0 : 0 ≤ rv) (hrv : rv ≤ pv) (hlife : 0 < life) :
    calculate_depreciation_run pv rv life days_int =
      .error .undefinedFunction ∧
    (0 ≤ depreciation_formula pv rv life days ∧
      depreciation_formula pv rv life days ≤ pv - rv) :=
  ⟨rfl, sql_dep_bounds_aux pv rv life days hrv hlife⟩

/-- C3 witness: at purchase_value 10000, residual 1000, life 5, 2.5
years after purchase, the SQL call errors while the body's formula
yields 4500, between 0 and 9000. -/
theorem depreciation_bounds_example :
    calculate_depreciation_run 10000 1000 5 913 =
      .error .undefinedFunction ∧
    (0 ≤ depreciation_formula 10000 1000 5 913.125 ∧
      depreciation_formula 10000 1000 5 913.125 ≤ 10000 - 1000) :=
  depreciation_bounds 10000 1000 5 913 913.125
    (by norm_num) (by norm_num) (by norm_num)

/-- C5 counterexample: in a database where user 1's profile belongs to
company 10 and department 7 belongs to company 20, the assets SELECT
predicate correctly excludes company 20's asset, but the
asset_maintenance SELECT predicate evaluates to true for the same user
on a maintenance row of that asset — the claim's "every listed table"
fails at asset_maintenance. -/
theorem maintenance_policy_not_isolated :
    assets_select_policy ⟨[⟨1, 10⟩], [⟨7, 20⟩]⟩ 1 ⟨0, some 7⟩ = false ∧
    asset_maintenance_select_policy ⟨[⟨1, 10⟩], [⟨7, 20⟩]⟩ 1 ⟨5, 0⟩ = true := by
  exact ⟨by decide, rfl⟩

/-- C5 amended: the company-isolation claim holds for the assets
table: whenever the requesting user's unique profile is in company A,
the asset's department belongs to company B ≠ A, and ids are unique (as
the schema's PRIMARY KEY / UNIQUE constraints guarantee), the assets
SELECT policy evaluates to false; the asset_maintenance SELECT policy,
by contrast, admits any authenticated user, so maintenance rows are not
company-isolated. -/
theorem assets_select_company_isolated (db : DB) (uid : ℕ) (a : AssetRow)
    (p : Profile) (d : Department)
    (hp : p ∈ db.profiles) (hpu : p.user_id = uid)
    (hpuniq : ∀ p' ∈ db.profiles, p'.user_id = uid → p' = p)
    (hd : d ∈ db.departments) (had : a.department_id = some d.id)
    (hduniq : ∀ d' ∈ db.departments, d'.id = d.id → d' = d)
    (hcomp : d.company_id ≠ p.company_id) :
    assets_select_policy db uid a = false := by
  rw [Bool.eq_false_iff]
  intro h
  simp only [assets_select_policy, Bool.or_eq_true, List.any_eq_true,
    Bool.and_eq_true, beq_iff_eq] at h
  rcases h with ⟨d', hd', ⟨p', hp', hpu', hpc'⟩, hdep⟩ | hnone
  · have hd'id : d'.id = d.id := by
      rw [had] at hdep
      exact (Option.some.inj hdep).symm
    have hd'd : d' = d := hduniq d' hd' hd'id
    have hp'p : p' = p := hpuniq p' hp' hpu'
    rw [hd'd] at hpc'
    rw [hp'p] at hpc'
    exact hcomp (hpc'.symm)
  · rw [had] at hnone
    simp at hnone

/-- C5 witness: in the concrete two-company database the assets SELECT
predicate is false for the cross-company asset. -/
theorem assets_select_company_isolated_example :
    assets_select_policy ⟨[⟨1, 10⟩], [⟨7, 20⟩]⟩ 1 ⟨3, some 7⟩ = false :=
  assets_select_company_isolated ⟨[⟨1, 10⟩], [⟨7, 20⟩]⟩ 1 ⟨3, some 7⟩
    ⟨1, 10⟩ ⟨7, 20⟩ (by decide) rfl (by decide) (by decide) rfl
    (by decide) (by decide)

/-- C8: the report data is a function of the prompt and the fetched
table contents alone — two runs differing only in the LLM-drafted SQL
text yield the same data — and the branch is selected by keyword
matching: the category grouping if the lower-cased prompt contains
'categoria' or 'category', else the maintenance-type grouping if it
contains 'manutenção' or 'maintenance', else the status grouping. -/
theorem reportData_keyword_determined
    (prompt sql1 sql2 : String) (assets : List ReportAsset)
    (maints : List ReportMaintenance) :
    generateReportData prompt sql1 assets maints =
      generateReportData prompt sql2 assets maints ∧
    ((jsIncludes (jsToLowerCase prompt) "categoria" ||
        jsIncludes (jsToLowerCase prompt) "category") = true →
      generateReportData prompt sql1 assets maints = categoryReport assets) ∧
    ((jsIncludes (jsToLowerCase prompt) "categoria" ||
        jsIncludes (jsToLowerCase prompt) "category") = false →
      (jsIncludes (jsToLowerCase prompt) "manutenção" ||
        jsIncludes (jsToLowerCase prompt) "maintenance") = true →
      generateReportData prompt sql1 assets maints = maintenanceReport maints) ∧
    ((jsIncludes (jsToLowerCase prompt) "categoria" ||
        jsIncludes (jsToLowerCase prompt) "category") = false →
      (jsIncludes (jsToLowerCase prompt) "manutenção" ||
        jsIncludes (jsToLowerCase prompt) "maintenance") = false →
      generateReportData prompt sql1 assets maints = statusReport assets) := by
  refine ⟨rfl, ?_, ?_, ?_⟩
  · intro h
    simp [generateReportData, h]
  · intro h1 h2
    simp [generateReportData, h1, h2]
  · intro h1 h2
    simp [generateReportData, h1, h2]

/-- C8 witness: for the prompt "Valor por CATEGORIA" the report data is
the category aggregation regardless of which SQL text the LLM
drafted. -/
theorem reportData_keyword_determined_example :
    generateReportData "Valor por CATEGORIA" "SELECT 1" [] [] =
      generateReportData "Valor por CATEGORIA" "SELECT 2" [] [] ∧
    generateReportData "Valor por CATEGORIA" "SELECT 1" [] [] =
      categoryReport [] :=
  ⟨(reportData_keyword_determined "Valor por CATEGORIA" "SELECT 1"
      "SELECT 2" [] []).1,
    (reportData_keyword_determined "Valor por CATEGORIA" "SELECT 1"
      "SELECT 2" [] []).2.1 (by decide)⟩

/-- C4 (code bug): at the one instant 2.5 × 365.25 days (78894000000
ms; 913 whole days as a date difference) after purchase, with
purchase_value 10000, residual 1000, life 5: the SQL functions raise
42883 instead of returning 4500 and 5500; the shared annual
straight-line amount is 1800 and AssetList returns 5500 as the spec's
example states; AssetDetails, measuring years as 365 days, returns
401275/73 ≈ 5496.92 rather than 5500. -/
theorem depreciation_example_values :
    calculate_depreciation_run 10000 1000 5 913 =
      .error .undefinedFunction ∧
    calculate_book_value_run 10000 1000 5 913 =
      .error .undefinedFunction ∧
    annual_depreciation 10000 1000 5 = 1800 ∧
    assetList_calculateBookValue 10000 1000 5 78894000000 = 5500 ∧
    assetDetails_calculateBookValue 10000 1000 5 78894000000 =
      401275 / 73 ∧
    assetDetails_calculateBookValue 10000 1000 5 78894000000 ≠ 5500 := by
  refine ⟨rfl, rfl, ?_, ?_, ?_, ?_⟩ <;>
    norm_num [annual_depreciation, assetList_calculateBookValue,
      assetDetails_calculateBookValue, min_def, max_def]

/-- C6: every status update the dashboard can issue follows
agendada→em_andamento→concluída (the cancelada transitions the spec
also allows are simply never issued), and from the terminal states
concluída and cancelada no status-changing action is offered. -/
theorem maintenance_status_transitions :
    (∀ s t : MaintStatus, t ∈ handleStatusChangeTargets s →
      (s = agendada ∧ t = emAndamento) ∨
      (s = emAndamento ∧ t = concluida) ∨
      ((s = agendada ∨ s = emAndamento) ∧ t = cancelada)) ∧
    (∀ s : MaintStatus, s = concluida ∨ s = cancelada →
      handleStatusChangeTargets s = []) := by
  constructor
  · decide
  · decide

/-- C6 witness: the concrete transition agendada→em_andamento offered by
the "Iniciar" button is among the allowed ones, and the terminal status
concluída offers no action. -/
theorem maintenance_status_transitions_example :
    ((agendada = agendada ∧ emAndamento = emAndamento) ∨
      (agendada = emAndamento ∧ emAndamento = concluida) ∨
      ((agendada = agendada ∨ agendada = emAndamento) ∧
        emAndamento = cancelada)) ∧
    handleStatusChangeTargets concluida = [] :=
  ⟨maintenance_status_transitions.1 agendada emAndamento (by decide),
    maintenance_status_transitions.2 concluida (Or.inl rfl)⟩

/-- C7: the create form's `min="1"` constraint on the
`useful_life_years` number input rejects the value 0 (and every value
below 1) before submission, so every accepted filled-in value is a
nonzero divisor; and the SQL depreciation function is the bare
straight-line formula, containing no zero-divisor handling of its
own. -/
theorem useful_life_validation :
    numberInputAccepts assetForm_usefulLifeMin (some 0) = false ∧
    (∀ n : ℤ, numberInputAccepts assetForm_usefulLifeMin (some n) = true →
      (n : ℚ) ≠ 0 ∧ 1 ≤ n) ∧
    (∀ purchase_value residual_value : ℚ, ∀ useful_life_years : ℤ,
      ∀ days_passed : ℚ,
      calculate_depreciation purchase_value residual_value
          useful_life_years days_passed =
        depreciation_formula purchase_value residual_value
          useful_life_years days_passed) := by
  refine ⟨rfl, ?_, fun _ _ _ _ => rfl⟩
  intro n hn
  have h1 : (1 : ℤ) ≤ n := by
    simpa [numberInputAccepts, assetForm_usefulLifeMin] using hn
  constructor
  · exact_mod_cast (by omega : n ≠ 0)
  · exact h1

/-- C7 witness: the default value 5 passes the input constraint and is a
nonzero divisor. -/
theorem useful_life_validation_example :
    numberInputAccepts assetForm_usefulLifeMin (some 5) = true ∧
    ((5 : ℤ) : ℚ) ≠ 0 ∧ (1 : ℤ) ≤ 5 :=
  ⟨by decide, useful_life_validation.2.1 5 (by decide)⟩

/-- C9: an asset whose `department_id` is NULL satisfies both the
SELECT and the UPDATE row-level-security policy for every user and every
database state, so such assets are visible to and updatable by users of
every company. -/
theorem null_department_assets_accessible :
    ∀ (db : DB) (uid : ℕ) (a : AssetRow), a.department_id = none →
      assets_select_policy db uid a = true ∧
      assets_update_policy db uid a = true := by
  intro db uid a ha
  constructor <;> simp [assets_select_policy, assets_update_policy, ha]

/-- C9 witness: a concrete department-less asset is visible to and
updatable by a user whose profile belongs to a different company than
every department in the database. -/
theorem null_department_assets_accessible_example :
    assets_select_policy
        ⟨[⟨1, 10⟩], [⟨7, 20⟩]⟩ 1 ⟨0, none⟩ = true ∧
      assets_update_policy
        ⟨[⟨1, 10⟩], [⟨7, 20⟩]⟩ 1 ⟨0, none⟩ = true :=
  null_department_assets_accessible ⟨[⟨1, 10⟩], [⟨7, 20⟩]⟩ 1 ⟨0, none⟩ rfl

/-- C10: the edit path maps a `useful_life_years` field that parses to 0
or fails to parse (`NaN`) to the stored value 5, and never stores 0. -/
theorem editAsset_useful_life_fallback :
    editAsset_useful_life_years none = 5 ∧
    editAsset_useful_life_years (some 0) = 5 ∧
    (∀ parsed : Option ℤ, editAsset_useful_life_years parsed ≠ 0) := by
  refine ⟨rfl, rfl, ?_⟩
  intro parsed
  match parsed with
  | none => simp [editAsset_useful_life_years]
  | some n =>
    by_cases h : n = 0 <;> simp [editAsset_useful_life_years, h]

/-- C10 witness: the concrete parses 0 and NaN both store 5, and the
parse 7 does not store 0. -/
theorem editAsset_useful_life_fallback_example :
    editAsset_useful_life_years (some 0) = 5 ∧
    editAsset_useful_life_years (some 7) ≠ 0 :=
  ⟨editAsset_useful_life_fallback.2.1,
    editAsset_useful_life_fallback.2.2 (some 7)⟩

end AssetFlow
